import Mathlib

/-!
Verification of the feature-encoding logic of `streamlit_app.py`
(Customer-Churn-prediction-app).

The app has three paths that build the 19-slot feature vector the
classifier consumes:
  * the raw-CSV bulk path: `preprocess_raw` (lines 33-69) followed by a
    NaN-fill step (lines 99-101);
  * the pre-encoded-CSV bulk path: a missing-column check (lines 92-95)
    and column selection `df_uploaded[FEATURES]` (line 96), followed by
    the same NaN-fill step;
  * the manual form path: widget values assembled into a plain list
    (lines 150-156).

Pandas cell values are modelled by `FVal`: a finite rational, NaN, or a
signed infinity, with IEEE-style propagation through the arithmetic the
code performs (`+`, `/`, comparisons).  Real-number arithmetic is
idealised by ℚ; none of the verified properties depends on rounding.
`pd.to_numeric(..., errors='coerce')` applied to a raw text cell is
modelled by its outcome, an `Option ℚ`: `some q` when the text parses to
the number `q`, `none` when parsing fails (pandas then stores NaN).
-/

namespace Churn

/-- A pandas cell value after numeric operations: a finite float
(idealised as a rational), NaN, or a signed infinity. -/
inductive FVal where
  | num (q : ℚ)
  | nan
  | inf
  | neginf
deriving DecidableEq, Repr

/-- Is this cell NaN?  (`pd.isnull` on a float column.) -/
def FVal.isNan : FVal → Bool
  | .nan => true
  | _ => false

/-- IEEE-style addition on pandas float cells: NaN propagates, opposite
infinities give NaN. -/
def FVal.add : FVal → FVal → FVal
  | .nan, _ => .nan
  | _, .nan => .nan
  | .num a, .num b => .num (a + b)
  | .inf, .neginf => .nan
  | .neginf, .inf => .nan
  | .inf, _ => .inf
  | _, .inf => .inf
  | .neginf, _ => .neginf
  | _, .neginf => .neginf

/-- IEEE-style division on pandas float cells: NaN propagates, x/0 is a
signed infinity for x ≠ 0 and NaN for 0/0. -/
def FVal.div : FVal → FVal → FVal
  | .nan, _ => .nan
  | _, .nan => .nan
  | .num a, .num b =>
      if b ≠ 0 then .num (a / b)
      else if 0 < a then .inf
      else if a < 0 then .neginf
      else .nan
  | .num _, .inf => .num 0
  | .num _, .neginf => .num 0
  | .inf, .num b => if b < 0 then .neginf else .inf
  | .neginf, .num b => if b < 0 then .inf else .neginf
  | .inf, _ => .nan
  | .neginf, _ => .nan

/-- `x > q` on a pandas float cell; any comparison with NaN is False. -/
def FVal.gtQ : FVal → ℚ → Bool
  | .num a, q => a > q
  | .inf, _ => true
  | .nan, _ => false
  | .neginf, _ => false

/-- Outcome of `pd.to_numeric(cell, errors='coerce')` on a raw text
cell: the parsed number, or NaN when parsing failed. -/
def toNumeric : Option ℚ → FVal
  | some q => .num q
  | none => .nan

/-- One raw-mode CSV row, holding each source cell's value.  The numeric
cells `tenure`, `MonthlyCharges`, `TotalCharges` carry the outcome of
numeric coercion (`some q` parses, `none` does not); `SeniorCitizen` is
read as a number directly by `pd.read_csv` and the code never coerces
it. -/
structure RawRecord where
  gender : String
  SeniorCitizen : ℚ
  Partner : String
  Dependents : String
  tenure : Option ℚ
  PhoneService : String
  PaperlessBilling : String
  MultipleLines : String
  InternetService : String
  PaymentMethod : String
  MonthlyCharges : Option ℚ
  TotalCharges : Option ℚ
deriving DecidableEq, Repr

/-- The exact feature order the model expects (lines 21-28). -/
def FEATURES : List String :=
  ["gender", "SeniorCitizen", "Partner", "Dependents", "tenure",
   "PhoneService", "PaperlessBilling", "MonthlyCharges", "TotalCharges",
   "MultipleLines_Yes", "InternetService_Fiber optic", "InternetService_No",
   "PaymentMethod_Credit card (automatic)", "PaymentMethod_Electronic check",
   "PaymentMethod_Mailed check", "TenureGroup_Mid", "ChargeRatio",
   "Senior_Fiber", "HighRisk"]

/-- `.map({'Yes': 1, 'No': 0})` on a pandas column: an unlisted value
becomes NaN. -/
def mapYesNo (s : String) : FVal :=
  if s = "Yes" then .num 1 else if s = "No" then .num 0 else .nan

/-- `.map({'Male': 0, 'Female': 1})`: an unlisted value becomes NaN. -/
def mapGender (s : String) : FVal :=
  if s = "Male" then .num 0 else if s = "Female" then .num 1 else .nan

/-- Line 60: `1 if pd.notnull(x) and 12 <= x <= 36 else 0` applied to
the coerced tenure cell. -/
def tenureGroupMidSlot : FVal → ℚ
  | .num x => if 12 ≤ x ∧ x ≤ 36 then 1 else 0
  | _ => 0

/-- The body of `preprocess_raw` on one row (lines 36-66): numeric
coercion, the binary maps, the one-hot indicators, the engineered
features, and the final selection of the 19 `FEATURES` columns in
order.  No NaN-filling happens here; that is a later pipeline stage. -/
def encodeRow (r : RawRecord) : List FVal :=
  let tenureN := toNumeric r.tenure
  let monthlyN := toNumeric r.MonthlyCharges
  let totalN := toNumeric r.TotalCharges
  let fiber : ℚ := if r.InternetService = "Fiber optic" then 1 else 0
  let noInternet : ℚ := if r.InternetService = "No" then 1 else 0
  [ mapGender r.gender,
    .num r.SeniorCitizen,
    mapYesNo r.Partner,
    mapYesNo r.Dependents,
    tenureN,
    mapYesNo r.PhoneService,
    mapYesNo r.PaperlessBilling,
    monthlyN,
    totalN,
    mapYesNo r.MultipleLines,
    .num fiber,
    .num noInternet,
    .num (if r.PaymentMethod = "Credit card (automatic)" then 1 else 0),
    .num (if r.PaymentMethod = "Electronic check" then 1 else 0),
    .num (if r.PaymentMethod = "Mailed check" then 1 else 0),
    .num (tenureGroupMidSlot tenureN),
    FVal.div monthlyN (FVal.add totalN (.num 1)),
    .num (r.SeniorCitizen * fiber),
    .num (if FVal.gtQ monthlyN 80 then 1 else 0) ]

/-- The raw source columns `preprocess_raw` reads, in order of first
access; accessing a missing one raises `KeyError`, re-raised as
`ValueError` by the `except` clause (lines 68-69). -/
def requiredRawCols : List String :=
  ["TotalCharges", "MonthlyCharges", "tenure", "gender", "Partner",
   "Dependents", "PhoneService", "PaperlessBilling", "MultipleLines",
   "InternetService", "PaymentMethod", "SeniorCitizen"]

/-- A raw-mode uploaded CSV: the set of columns present in the file and
the rows' cell values.  A `RawRecord` field is meaningful only when its
column appears in `cols` (a missing column is detected before any cell
of it is read). -/
structure RawFrame where
  cols : List String
  rows : List RawRecord
deriving DecidableEq, Repr

/-- `preprocess_raw` on a whole frame: fails (with the `ValueError` of
lines 68-69) as soon as a required source column is absent, otherwise
encodes every row. -/
def preprocess_raw (f : RawFrame) : Except String (List (List FVal)) :=
  match requiredRawCols.find? (fun c => !f.cols.contains c) with
  | some c => .error ("Preprocessing error: " ++ c)
  | none => .ok (f.rows.map encodeRow)

/-- `df_processed.isnull().any().any()` (line 99). -/
def hasNaN (rows : List (List FVal)) : Bool :=
  rows.any (fun row => row.any FVal.isNan)

/-- `df_processed.fillna(0)` on one row (line 101). -/
def fillna0 (row : List FVal) : List FVal :=
  row.map (fun x => if x.isNan then .num 0 else x)

/-- The raw-CSV bulk path up to the matrix handed to
`model.predict_proba` (lines 83-101): preprocess, then the NaN warning
flag and the NaN fill.  The Boolean is whether the single batch-wide
"filling NaNs with 0" warning was shown. -/
def bulk_raw (f : RawFrame) : Except String (Bool × List (List FVal)) :=
  match preprocess_raw f with
  | .error e => .error e
  | .ok rows => .ok (hasNaN rows, rows.map fillna0)

/-- A pre-encoded CSV row: its cells as (column name, value) pairs in
the file's column order. -/
def PreRow : Type := List (String × FVal)

/-- The cell a pre-encoded row holds under column `c`
(`df_uploaded[c]` for one row). -/
def cellOf (row : PreRow) (c : String) : FVal :=
  (List.lookup c row).getD (.num 0)

/-- `df_uploaded[FEATURES]` on one row (line 96): select the 19 named
columns in canonical order, nothing recomputed. -/
def selectRow (row : PreRow) : List FVal :=
  FEATURES.map (cellOf row)

/-- `[c for c in FEATURES if c not in df_uploaded.columns]`
(line 92). -/
def missingCols (cols : List String) : List String :=
  FEATURES.filter (fun c => !cols.contains c)

/-- The pre-encoded bulk path (lines 90-96): reject the upload, listing
the missing feature columns, when any is absent; otherwise select the
19 columns of every row in canonical order. -/
def bulk_pre (cols : List String) (rows : List PreRow) :
    Except (List String) (List (List FVal)) :=
  if missingCols cols = [] then .ok (rows.map selectRow)
  else .error (missingCols cols)

/-- The manual form's widget values (lines 128-146).  String fields
come from selectboxes over their listed options; the numeric fields are
the number inputs and 0/1 selectboxes.  The four derived slots
(`tenure_group_mid`, `charge_ratio`, `senior_fiber`, `high_risk`) are
independent widgets. -/
structure ManualInput where
  gender : String
  senior : ℚ
  partner : String
  dependents : String
  tenure : ℚ
  monthly : ℚ
  total : ℚ
  paperless : String
  phone : String
  multiple : String
  fiber : ℚ
  no_internet : ℚ
  credit : ℚ
  electronic : ℚ
  mailed : ℚ
  tenure_group_mid : ℚ
  charge_ratio : ℚ
  senior_fiber : ℚ
  high_risk : ℚ
deriving DecidableEq, Repr

/-- The dict `{"Male": 0, "Female": 1, "Yes": 1, "No": 0}` (line 150);
indexing it with an unlisted key raises `KeyError` (modelled by
`List.lookup` returning `none`). -/
def mapping : List (String × ℚ) :=
  [("Male", 0), ("Female", 1), ("Yes", 1), ("No", 0)]

/-- The `features` list the manual path hands to `predict_proba`
(lines 151-156), in the order written in the source. -/
def manualFeatures (m : ManualInput) : Option (List ℚ) := do
  let g ← List.lookup m.gender mapping
  let p ← List.lookup m.partner mapping
  let d ← List.lookup m.dependents mapping
  let ph ← List.lookup m.phone mapping
  let pl ← List.lookup m.paperless mapping
  let mu ← List.lookup m.multiple mapping
  pure [g, m.senior, p, d, m.tenure,
        ph, pl, m.monthly, m.total, mu,
        m.fiber, m.no_internet, m.credit, m.electronic, m.mailed,
        m.tenure_group_mid, m.charge_ratio, m.senior_fiber, m.high_risk]

/-- The numeric value the manual `mapping` dict assigns to a Yes/No
answer (`Yes→1`, `No→0`), agreeing with the bulk path's `yes_no` map on
its domain. -/
def yesNoQ (s : String) : ℚ := if s = "Yes" then 1 else 0

/-- The numeric value the manual `mapping` dict assigns to a gender
answer (`Male→0`, `Female→1`), agreeing with the bulk path's
`male_female` map on its domain. -/
def genderQ (s : String) : ℚ := if s = "Male" then 0 else 1

/-- The manual-form input describing the same customer as a raw record
whose numeric cells coerced to `t`, `mth`, `tot`: raw answers are copied
and the four derived widgets are set consistently with the training
formulas (lines 60-63). -/
def toManual (r : RawRecord) (t mth tot : ℚ) : ManualInput :=
  { gender := r.gender, senior := r.SeniorCitizen,
    partner := r.Partner, dependents := r.Dependents,
    tenure := t, monthly := mth, total := tot,
    paperless := r.PaperlessBilling, phone := r.PhoneService,
    multiple := r.MultipleLines,
    fiber := if r.InternetService = "Fiber optic" then 1 else 0,
    no_internet := if r.InternetService = "No" then 1 else 0,
    credit := if r.PaymentMethod = "Credit card (automatic)" then 1 else 0,
    electronic := if r.PaymentMethod = "Electronic check" then 1 else 0,
    mailed := if r.PaymentMethod = "Mailed check" then 1 else 0,
    tenure_group_mid := if 12 ≤ t ∧ t ≤ 36 then 1 else 0,
    charge_ratio := mth / (tot + 1),
    senior_fiber := r.SeniorCitizen *
      (if r.InternetService = "Fiber optic" then 1 else 0),
    high_risk := if mth > 80 then 1 else 0 }

/-! ### Concrete test data -/

/-- The worked example of the spec (§8): Female senior on fiber optic,
electronic check, tenure 24, monthly 90, total 2000. -/
def exRec : RawRecord :=
  { gender := "Female", SeniorCitizen := 1, Partner := "No",
    Dependents := "No", tenure := some 24, PhoneService := "Yes",
    PaperlessBilling := "Yes", MultipleLines := "No",
    InternetService := "Fiber optic", PaymentMethod := "Electronic check",
    MonthlyCharges := some 90, TotalCharges := some 2000 }

/-- The spec's example record with the non-derivation fields changed
(gender, partner, phone service, payment method): the derivation
inputs `SeniorCitizen`, `tenure`, `MonthlyCharges`, `TotalCharges`,
`InternetService` are identical to `exRec`. -/
def exRecAlt : RawRecord :=
  { gender := "Male", SeniorCitizen := 1, Partner := "Yes",
    Dependents := "No", tenure := some 24, PhoneService := "No",
    PaperlessBilling := "Yes", MultipleLines := "Yes",
    InternetService := "Fiber optic", PaymentMethod := "Mailed check",
    MonthlyCharges := some 90, TotalCharges := some 2000 }

/-- A row whose `TotalCharges` cell reads `"N/A"`: numeric coercion
fails (`none`), every other field is well-formed. -/
def rowNA : RawRecord :=
  { gender := "Male", SeniorCitizen := 0, Partner := "Yes",
    Dependents := "No", tenure := some 5, PhoneService := "Yes",
    PaperlessBilling := "No", MultipleLines := "No",
    InternetService := "DSL", PaymentMethod := "Mailed check",
    MonthlyCharges := some 50, TotalCharges := none }

/-- A row whose `Partner` cell holds the out-of-domain answer
`"Maybe"` and whose `MonthlyCharges` cell fails numeric coercion. -/
def rowBadCat : RawRecord :=
  { gender := "Male", SeniorCitizen := 0, Partner := "Maybe",
    Dependents := "No", tenure := some 10, PhoneService := "Yes",
    PaperlessBilling := "No", MultipleLines := "No",
    InternetService := "No", PaymentMethod := "Electronic check",
    MonthlyCharges := none, TotalCharges := some 100 }

/-- A record with categorical values outside every enumerated list:
`internetService = "Satellite"`, `paymentMethod = "Crypto"`. -/
def rowUnlisted : RawRecord :=
  { gender := "Male", SeniorCitizen := 1, Partner := "Yes",
    Dependents := "Yes", tenure := some 40, PhoneService := "No",
    PaperlessBilling := "Yes", MultipleLines := "Yes",
    InternetService := "Satellite", PaymentMethod := "Crypto",
    MonthlyCharges := some 30, TotalCharges := some 10 }

/-- A 3-row raw upload whose middle row has `TotalCharges = "N/A"`;
all required source columns are present. -/
def frameNA : RawFrame := { cols := requiredRawCols, rows := [exRec, rowNA, exRec] }

/-- A 1-row raw upload whose row has `Partner = "Maybe"`; all required
source columns are present. -/
def frameBadCat : RawFrame := { cols := requiredRawCols, rows := [rowBadCat] }

/-- A raw upload whose `gender` column is absent. -/
def frameNoGender : RawFrame :=
  { cols := ["TotalCharges", "MonthlyCharges", "tenure", "Partner",
             "Dependents", "PhoneService", "PaperlessBilling", "MultipleLines",
             "InternetService", "PaymentMethod", "SeniorCitizen"],
    rows := [exRec] }

/-- A 2-row raw upload whose FIRST row carries unparseable data. -/
def frameBadFirst : RawFrame := { cols := requiredRawCols, rows := [rowNA, exRec] }

/-- A 2-row raw upload whose SECOND row carries the same unparseable
data. -/
def frameBadSecond : RawFrame := { cols := requiredRawCols, rows := [exRec, rowNA] }

/-- A manual-form submission whose derived widgets contradict the
training formulas: tenure 24 (so the derived mid-group indicator would
be 1) but `TenureGroup_Mid` set to 0; monthly 90 (> 80, derived
`HighRisk` would be 1) but `HighRisk` set to 0; `Charge Ratio` set to 7
instead of 90 / 2001. -/
def mBad : ManualInput :=
  { gender := "Female", senior := 1, partner := "No", dependents := "No",
    tenure := 24, monthly := 90, total := 2000, paperless := "Yes",
    phone := "Yes", multiple := "No", fiber := 1, no_internet := 0,
    credit := 0, electronic := 1, mailed := 0,
    tenure_group_mid := 0, charge_ratio := 7, senior_fiber := 1,
    high_risk := 0 }

/-- A pre-encoded row holding the 19 feature columns in a scrambled
order (derived columns first, then the rest reversed). -/
def rowScrambled : PreRow :=
  [("HighRisk", .num 1), ("ChargeRatio", .num 45), ("Senior_Fiber", .num 1),
   ("TenureGroup_Mid", .num 0), ("PaymentMethod_Mailed check", .num 0),
   ("PaymentMethod_Electronic check", .num 1),
   ("PaymentMethod_Credit card (automatic)", .num 0),
   ("InternetService_No", .num 0), ("InternetService_Fiber optic", .num 1),
   ("MultipleLines_Yes", .num 0), ("TotalCharges", .num 2000),
   ("MonthlyCharges", .num 90), ("PaperlessBilling", .num 1),
   ("PhoneService", .num 1), ("tenure", .num 24), ("Dependents", .num 0),
   ("Partner", .num 0), ("SeniorCitizen", .num 1), ("gender", .num 1)]

/-! ### Helper lemmas -/

theorem FVal.isNan_iff (x : FVal) : x.isNan = true ↔ x = .nan := by
  cases x <;> simp [FVal.isNan]

theorem preprocess_raw_ok (f : RawFrame)
    (hc : ∀ c ∈ requiredRawCols, c ∈ f.cols) :
    preprocess_raw f = .ok (f.rows.map encodeRow) := by
  have h : requiredRawCols.find? (fun c => !f.cols.contains c) = none := by
    rw [List.find?_eq_none]
    intro c hcmem
    simp [hc c hcmem]
  unfold preprocess_raw
  rw [h]

theorem lookup_yn (s : String) (h : s = "Yes" ∨ s = "No") :
    List.lookup s mapping = some (yesNoQ s) := by
  rcases h with h | h <;> subst h <;> decide

theorem lookup_g (s : String) (h : s = "Male" ∨ s = "Female") :
    List.lookup s mapping = some (genderQ s) := by
  rcases h with h | h <;> subst h <;> decide

theorem mapYesNo_eq (s : String) (h : s = "Yes" ∨ s = "No") :
    mapYesNo s = .num (yesNoQ s) := by
  rcases h with h | h <;> subst h <;> decide

theorem mapGender_eq (s : String) (h : s = "Male" ∨ s = "Female") :
    mapGender s = .num (genderQ s) := by
  rcases h with h | h <;> subst h <;> decide

/-! ### Claim C5 -/

/-- **C5.** For every tenure value `t` of a raw-mode record (a tenure
cell that coerces to the number `t`), the encoded `TenureGroup_Mid`
slot equals 1 if and only if `12 ≤ t ≤ 36`, and equals 0 otherwise. -/
theorem tenureGroupMid_slot_iff (r : RawRecord) (t : ℚ)
    (ht : r.tenure = some t) :
    ((encodeRow r).getD 15 (.num 9) = .num 1 ↔ (12 ≤ t ∧ t ≤ 36)) ∧
    (¬ (12 ≤ t ∧ t ≤ 36) → (encodeRow r).getD 15 (.num 9) = .num 0) := by
  by_cases h : 12 ≤ t ∧ t ≤ 36 <;>
    simp [encodeRow, toNumeric, ht, tenureGroupMidSlot, h]

/-- Witness for C5 at the spec's example record (tenure 24, inside the
mid band). -/
theorem tenureGroupMid_slot_iff_witness :
    (encodeRow exRec).getD 15 (.num 9) = .num 1 :=
  (tenureGroupMid_slot_iff exRec 24 rfl).1.mpr (by norm_num)

/-! ### Claim C1 -/

/-- **C1.** For every record whose `MonthlyCharges` and `TotalCharges`
cells coerce to `m, c ≥ 0`, the encoder's `ChargeRatio` slot equals
`m / (c + 1)`, and the slot in the final emitted vector (after the
NaN-fill stage) is that same finite rational — the denominator `c + 1`
is never zero. -/
theorem chargeRatio_slot_spec (r : RawRecord) (m c : ℚ)
    (hm : r.MonthlyCharges = some m) (hc : r.TotalCharges = some c)
    (_hm0 : 0 ≤ m) (hc0 : 0 ≤ c) :
    (encodeRow r).getD 16 (.num 9) = .num (m / (c + 1)) ∧
    (fillna0 (encodeRow r)).getD 16 (.num 9) = .num (m / (c + 1)) := by
  have hne : c + 1 ≠ 0 := by intro h0; linarith
  constructor <;>
    simp [encodeRow, toNumeric, hm, hc, FVal.add, FVal.div, hne,
      fillna0, FVal.isNan]

/-- Witness for C1 at the spec's example record: slot 16 is
`90 / 2001` before and after the fill stage. -/
theorem chargeRatio_slot_spec_witness :
    (encodeRow exRec).getD 16 (.num 9) = .num (90 / 2001) ∧
    (fillna0 (encodeRow exRec)).getD 16 (.num 9) = .num (90 / 2001) := by
  have h := chargeRatio_slot_spec exRec 90 2000 rfl rfl (by norm_num)
    (by norm_num)
  norm_num at h ⊢
  exact h

/-! ### Claim C9 -/

/-- **C9.** For every raw-mode record the one-hot groups are mutually
exclusive — at most one of the two `InternetService` slots (indices
10, 11) is 1, and at most one of the three `PaymentMethod` slots
(indices 12-14) is 1 — and a categorical value outside the enumerated
list yields all-zero slots for its group. -/
theorem one_hot_exclusive (r : RawRecord) :
    (¬ ((encodeRow r).getD 10 (.num 9) = .num 1 ∧
        (encodeRow r).getD 11 (.num 9) = .num 1)) ∧
    (¬ ((encodeRow r).getD 12 (.num 9) = .num 1 ∧
        (encodeRow r).getD 13 (.num 9) = .num 1)) ∧
    (¬ ((encodeRow r).getD 12 (.num 9) = .num 1 ∧
        (encodeRow r).getD 14 (.num 9) = .num 1)) ∧
    (¬ ((encodeRow r).getD 13 (.num 9) = .num 1 ∧
        (encodeRow r).getD 14 (.num 9) = .num 1)) ∧
    (r.InternetService ≠ "Fiber optic" → r.InternetService ≠ "No" →
      (encodeRow r).getD 10 (.num 9) = .num 0 ∧
      (encodeRow r).getD 11 (.num 9) = .num 0) ∧
    (r.PaymentMethod ≠ "Credit card (automatic)" →
      r.PaymentMethod ≠ "Electronic check" →
      r.PaymentMethod ≠ "Mailed check" →
      (encodeRow r).getD 12 (.num 9) = .num 0 ∧
      (encodeRow r).getD 13 (.num 9) = .num 0 ∧
      (encodeRow r).getD 14 (.num 9) = .num 0) := by
  simp only [encodeRow]
  norm_num
  refine ⟨?_, ?_, ?_, ?_, fun h1 h2 => ⟨h1, h2⟩,
    fun h1 h2 h3 => ⟨h1, h2, h3⟩⟩ <;> (intro h; rw [h]; decide)

/-- Witness for C9 at a record with `internetService = "Satellite"`
and `paymentMethod = "Crypto"`: both groups are all-zero. -/
theorem one_hot_exclusive_witness :
    ((encodeRow rowUnlisted).getD 10 (.num 9) = .num 0 ∧
     (encodeRow rowUnlisted).getD 11 (.num 9) = .num 0) ∧
    ((encodeRow rowUnlisted).getD 12 (.num 9) = .num 0 ∧
     (encodeRow rowUnlisted).getD 13 (.num 9) = .num 0 ∧
     (encodeRow rowUnlisted).getD 14 (.num 9) = .num 0) :=
  ⟨(one_hot_exclusive rowUnlisted).2.2.2.2.1 (by decide) (by decide),
   (one_hot_exclusive rowUnlisted).2.2.2.2.2 (by decide) (by decide)
     (by decide)⟩

/-! ### Claim C6 -/

/-- **C6.** Round-trip: a pre-encoded row that holds all 19 named
feature columns — in any column order, with `g c` the value stored
under column `c` — encodes to exactly the list of those 19 values in
the canonical `FEATURES` order, equal to constructing that vector
directly; no value is recomputed or altered. -/
theorem preencoded_roundtrip (row : PreRow) (g : String → FVal)
    (h : ∀ c ∈ FEATURES, List.lookup c row = some (g c)) :
    selectRow row = FEATURES.map g := by
  unfold selectRow
  exact List.map_congr_left (fun c hc => by simp [cellOf, h c hc])

/-- Witness for C6 at a scrambled 19-column row: selection returns the
stored cells in canonical order. -/
theorem preencoded_roundtrip_witness :
    selectRow rowScrambled = FEATURES.map (fun c => cellOf rowScrambled c) :=
  preencoded_roundtrip rowScrambled (fun c => cellOf rowScrambled c)
    (by decide)

/-! ### Claim C7 -/

/-- **C7.** In pre-encoded mode an upload missing at least one of the
19 required feature columns is rejected, and the rejection reports the
complete list of missing names (`c` is reported iff it is a feature
column absent from the upload); an upload with all 19 columns present
is not rejected for this reason. -/
theorem preencoded_missing_columns (cols : List String)
    (rows : List PreRow) :
    ((∃ c ∈ FEATURES, ¬ c ∈ cols) →
      bulk_pre cols rows = .error (missingCols cols)) ∧
    (∀ c, c ∈ missingCols cols ↔ (c ∈ FEATURES ∧ ¬ c ∈ cols)) ∧
    ((∀ c ∈ FEATURES, c ∈ cols) →
      bulk_pre cols rows = .ok (rows.map selectRow)) := by
  refine ⟨fun ⟨c, hcF, hcA⟩ => ?_, fun c => ?_, fun hall => ?_⟩
  · have hne : missingCols cols ≠ [] := by
      intro hnil
      rw [missingCols, List.filter_eq_nil_iff] at hnil
      exact (hnil c hcF) (by simp [hcA])
    simp [bulk_pre, hne]
  · simp [missingCols, List.mem_filter]
  · have hnil : missingCols cols = [] := by
      rw [missingCols, List.filter_eq_nil_iff]
      intro c hcF
      simp [hall c hcF]
    simp [bulk_pre, hnil]

/-- Witness for C7: an upload whose columns are only the first three
feature names is rejected listing the other sixteen, and an upload with
every feature column (scrambled order) is accepted. -/
theorem preencoded_missing_columns_witness :
    bulk_pre ["gender", "SeniorCitizen", "Partner"] [] =
      .error (missingCols ["gender", "SeniorCitizen", "Partner"]) ∧
    bulk_pre (rowScrambled.map Prod.fst) [rowScrambled] =
      .ok ([rowScrambled].map selectRow) :=
  ⟨(preencoded_missing_columns ["gender", "SeniorCitizen", "Partner"]
      []).1 ⟨"Dependents", by decide, by decide⟩,
   (preencoded_missing_columns (rowScrambled.map Prod.fst)
      [rowScrambled]).2.2 (by decide)⟩

/-! ### Claim C3 -/

/-- **C3 counterexample.** The manual-form path submits a vector whose
derived slots are independent widget values, not functions of the prior
raw fields: `mBad` has tenure 24 (slot 4) yet `TenureGroup_Mid` slot 0
where the derivation of line 60 yields 1, monthly charges 90 (slot 7)
yet `HighRisk` slot 0 where line 63 yields 1, and `ChargeRatio` slot 7
where line 61 yields 90 / 2001. -/
theorem derived_slots_caller_supplied_cex :
    (manualFeatures mBad).map
        (fun l => (l.getD 4 9, l.getD 15 9, l.getD 7 9, l.getD 18 9,
                   l.getD 16 9)) =
      some (24, 0, 90, 0, 7) ∧
    tenureGroupMidSlot (.num 24) = 1 ∧ (0 : ℚ) ≠ 1 ∧
    FVal.gtQ (.num 90) 80 = true ∧
    (7 : ℚ) ≠ 90 / (2000 + 1) := by
  refine ⟨by decide, by decide, by norm_num, by decide, by norm_num⟩

/-- **C3 (amended).** In the raw-CSV path the derived slots
(`TenureGroup_Mid`, `ChargeRatio`, `Senior_Fiber`, `HighRisk`, indices
15-18) are deterministic functions of the record's prior raw fields
(`tenure`, `MonthlyCharges`, `TotalCharges`, `SeniorCitizen`,
`InternetService`): two records agreeing on those fields encode to the
same four derived slots.  (In the manual-form and pre-encoded paths the
derived slots are independently supplied by the caller.) -/
theorem raw_derived_slots_deterministic (r1 r2 : RawRecord)
    (hs : r1.SeniorCitizen = r2.SeniorCitizen)
    (ht : r1.tenure = r2.tenure)
    (hm : r1.MonthlyCharges = r2.MonthlyCharges)
    (hc : r1.TotalCharges = r2.TotalCharges)
    (hi : r1.InternetService = r2.InternetService) :
    (encodeRow r1).getD 15 (.num 9) = (encodeRow r2).getD 15 (.num 9) ∧
    (encodeRow r1).getD 16 (.num 9) = (encodeRow r2).getD 16 (.num 9) ∧
    (encodeRow r1).getD 17 (.num 9) = (encodeRow r2).getD 17 (.num 9) ∧
    (encodeRow r1).getD 18 (.num 9) = (encodeRow r2).getD 18 (.num 9) := by
  simp [encodeRow, hs, ht, hm, hc, hi]

/-- Witness for the amended C3: two records sharing the derivation
inputs but differing elsewhere (gender, partner, payment method) have
identical derived slots. -/
theorem raw_derived_slots_deterministic_witness :
    (encodeRow exRec).getD 15 (.num 9) =
      (encodeRow exRecAlt).getD 15 (.num 9) ∧
    (encodeRow exRec).getD 16 (.num 9) =
      (encodeRow exRecAlt).getD 16 (.num 9) ∧
    (encodeRow exRec).getD 17 (.num 9) =
      (encodeRow exRecAlt).getD 17 (.num 9) ∧
    (encodeRow exRec).getD 18 (.num 9) =
      (encodeRow exRecAlt).getD 18 (.num 9) :=
  raw_derived_slots_deterministic exRec exRecAlt rfl rfl rfl rfl rfl

/-! ### Claim C2 -/

/-- **C2 counterexample.** A raw upload whose single row answers
`Partner = "Maybe"` (out of the enumerated {Yes, No} domain) is NOT
rejected: the pipeline succeeds (`toOption` is `some`), returns the
row, and the final vector's `Partner` slot (index 2) is the number 0 —
the out-of-domain categorical was silently mapped to a number instead
of failing with an `EncodingError`. -/
theorem out_of_domain_no_failure_cex :
    (bulk_raw frameBadCat).toOption.map (fun p => p.2.length) = some 1 ∧
    (bulk_raw frameBadCat).toOption.map
        (fun p => (p.2.getD 0 []).getD 2 (.num 9)) = some (.num 0) := by
  have hok : preprocess_raw frameBadCat =
      .ok (frameBadCat.rows.map encodeRow) :=
    preprocess_raw_ok frameBadCat (by decide)
  have hmain : bulk_raw frameBadCat = .ok (true,
      [[.num 0, .num 0, .num 0, .num 0, .num 10, .num 1, .num 0, .num 0,
        .num 100, .num 0, .num 0, .num 1, .num 0, .num 1, .num 0, .num 0,
        .num 0, .num 0, .num 0]]) := by
    unfold bulk_raw
    rw [hok]
    norm_num [frameBadCat, rowBadCat, encodeRow, toNumeric, mapYesNo,
      mapGender, tenureGroupMidSlot, FVal.add, FVal.div, FVal.gtQ,
      FVal.isNan, hasNaN, fillna0]
    decide
  rw [hmain]
  constructor <;> norm_num [Except.toOption]

/-- **C2 (amended).** Raw-mode encoding fails (the `ValueError`
wrapping a `KeyError`) exactly when a required source column is absent
from the upload.  An out-of-domain categorical value does NOT fail:
the binary map sends it to NaN (shown for `Partner`) and the final
fill stage silently emits 0 for that slot, the same way a numeric
coercion failure (shown for `MonthlyCharges`) resolves to 0. -/
theorem encode_failure_behavior (f : RawFrame) (r : RawRecord)
    (hp1 : r.Partner ≠ "Yes") (hp2 : r.Partner ≠ "No")
    (hm : r.MonthlyCharges = none) :
    ((∃ c ∈ requiredRawCols, ¬ c ∈ f.cols) →
      ∃ e, preprocess_raw f = .error e) ∧
    ((∀ c ∈ requiredRawCols, c ∈ f.cols) →
      preprocess_raw f = .ok (f.rows.map encodeRow)) ∧
    (encodeRow r).getD 2 (.num 9) = FVal.nan ∧
    (fillna0 (encodeRow r)).getD 2 (.num 9) = .num 0 ∧
    (fillna0 (encodeRow r)).getD 7 (.num 9) = .num 0 := by
  refine ⟨fun ⟨c, hcR, hcA⟩ => ?_, preprocess_raw_ok f, ?_, ?_, ?_⟩
  · cases hfind : requiredRawCols.find? (fun c => !f.cols.contains c) with
    | none =>
        exact absurd ((List.find?_eq_none.mp hfind) c hcR) (by simp [hcA])
    | some c' => exact ⟨_, by unfold preprocess_raw; rw [hfind]⟩
  · simp [encodeRow, mapYesNo, hp1, hp2]
  · simp [fillna0, encodeRow, mapYesNo, hp1, hp2, FVal.isNan]
  · simp [fillna0, encodeRow, hm, toNumeric, FVal.isNan]

/-- Witness for the amended C2: the upload lacking the `gender` column
fails, and the `Partner = "Maybe"` row's slot resolves to 0. -/
theorem encode_failure_behavior_witness :
    (∃ e, preprocess_raw frameNoGender = .error e) ∧
    (fillna0 (encodeRow rowBadCat)).getD 2 (.num 9) = .num 0 := by
  have h := encode_failure_behavior frameNoGender rowBadCat (by decide)
    (by decide) rfl
  exact ⟨h.1 ⟨"gender", by decide, by decide⟩, h.2.2.2.1⟩

/-! ### Claim C4 -/

/-- **C4 counterexample.** In the 3-row batch `frameNA` whose row 2 has
`totalCharges = "N/A"` and `monthlyCharges = 50`, the batch does return
3 results and the row is not rejected — but row 2's emitted
`ChargeRatio` slot is 0, not `monthlyCharges / (0 + 1) = 50` as the
claim states: the coerced cell is NaN, the ratio is computed against
NaN (giving NaN), and only afterwards does the fill stage write 0. -/
theorem na_total_chargeRatio_cex :
    (bulk_raw frameNA).toOption.map (fun p => p.2.length) = some 3 ∧
    (bulk_raw frameNA).toOption.map
        (fun p => (p.2.getD 1 []).getD 16 (.num 9)) = some (.num 0) ∧
    (bulk_raw frameNA).toOption.map
        (fun p => (p.2.getD 1 []).getD 7 (.num 9)) = some (.num 50) ∧
    FVal.num 0 ≠ FVal.num (50 / (0 + 1)) := by
  have hok : preprocess_raw frameNA = .ok (frameNA.rows.map encodeRow) :=
    preprocess_raw_ok frameNA (by decide)
  have hmain : bulk_raw frameNA = .ok (true,
      [[.num 1, .num 1, .num 0, .num 0, .num 24, .num 1, .num 1, .num 90,
        .num 2000, .num 0, .num 1, .num 0, .num 0, .num 1, .num 0, .num 1,
        .num (90 / 2001), .num 1, .num 1],
       [.num 0, .num 0, .num 1, .num 0, .num 5, .num 1, .num 0, .num 50,
        .num 0, .num 0, .num 0, .num 0, .num 0, .num 0, .num 1, .num 0,
        .num 0, .num 0, .num 0],
       [.num 1, .num 1, .num 0, .num 0, .num 24, .num 1, .num 1, .num 90,
        .num 2000, .num 0, .num 1, .num 0, .num 0, .num 1, .num 0, .num 1,
        .num (90 / 2001), .num 1, .num 1]]) := by
    unfold bulk_raw
    rw [hok]
    norm_num [frameNA, exRec, rowNA, encodeRow, toNumeric, mapYesNo,
      mapGender, tenureGroupMidSlot, FVal.add, FVal.div, FVal.gtQ,
      FVal.isNan, hasNaN, fillna0]
    decide
  rw [hmain]
  refine ⟨by norm_num [Except.toOption], by norm_num [Except.toOption],
    by norm_num [Except.toOption], by norm_num⟩

/-- **C4 (amended).** For a raw-mode row whose `totalCharges` fails
numeric coercion (e.g. reads `"N/A"`): the coerced `TotalCharges` cell
is NaN, the `ChargeRatio` is computed against that NaN and is itself
NaN — not `monthlyCharges / (0 + 1)` — and the final fill stage then
sets both slots to 0; the row is not rejected, and any batch whose
required columns are present returns exactly as many results as it has
rows. -/
theorem na_total_behavior (r : RawRecord) (m : ℚ)
    (hm : r.MonthlyCharges = some m) (hc : r.TotalCharges = none) :
    (encodeRow r).getD 8 (.num 9) = FVal.nan ∧
    (encodeRow r).getD 16 (.num 9) = FVal.nan ∧
    (fillna0 (encodeRow r)).getD 8 (.num 9) = .num 0 ∧
    (fillna0 (encodeRow r)).getD 16 (.num 9) = .num 0 ∧
    (∀ f : RawFrame, (∀ c ∈ requiredRawCols, c ∈ f.cols) →
      ∃ w rows, bulk_raw f = .ok (w, rows) ∧
        rows.length = f.rows.length) := by
  refine ⟨?_, ?_, ?_, ?_, fun f hf => ?_⟩
  · simp [encodeRow, hc, toNumeric]
  · simp [encodeRow, hm, hc, toNumeric, FVal.add, FVal.div]
  · simp [fillna0, encodeRow, hc, toNumeric, FVal.isNan]
  · simp [fillna0, encodeRow, hm, hc, toNumeric, FVal.add, FVal.div,
      FVal.isNan]
  · refine ⟨hasNaN (f.rows.map encodeRow),
      (f.rows.map encodeRow).map fillna0, ?_, by simp⟩
    unfold bulk_raw
    rw [preprocess_raw_ok f hf]

/-- Witness for the amended C4 at `rowNA` inside `frameNA`. -/
theorem na_total_behavior_witness :
    (fillna0 (encodeRow rowNA)).getD 16 (.num 9) = .num 0 ∧
    (∃ w rows, bulk_raw frameNA = .ok (w, rows) ∧ rows.length = 3) := by
  have h := na_total_behavior rowNA 50 rfl rfl
  refine ⟨h.2.2.2.1, ?_⟩
  obtain ⟨w, rows, hw, hl⟩ := h.2.2.2.2 frameNA (by decide)
  exact ⟨w, rows, hw, hl.trans rfl⟩

/-! ### Claim C8 -/

/-- **C8 counterexample.** The batch output carries no per-row
success/failure list and records no failure against a row's position:
for the 2-row uploads `frameBadFirst` (unparseable data in row 1) and
`frameBadSecond` (the same data in row 2) the entire failure signal is
the single batch-wide warning flag, which is `true` in both cases —
identical whichever row failed — while both rows are zero-filled and
returned.  The caller thus receives only aggregated output, contrary
to the claim. -/
theorem no_per_row_failure_list_cex :
    (bulk_raw frameBadFirst).toOption.map Prod.fst = some true ∧
    (bulk_raw frameBadSecond).toOption.map Prod.fst = some true ∧
    (bulk_raw frameBadFirst).toOption.map Prod.fst =
      (bulk_raw frameBadSecond).toOption.map Prod.fst ∧
    (bulk_raw frameBadFirst).toOption.map (fun p => p.2.length) = some 2 ∧
    (bulk_raw frameBadSecond).toOption.map (fun p => p.2.length) =
      some 2 := by
  have h1 : bulk_raw frameBadFirst =
      .ok (hasNaN (frameBadFirst.rows.map encodeRow),
        (frameBadFirst.rows.map encodeRow).map fillna0) := by
    unfold bulk_raw
    rw [preprocess_raw_ok frameBadFirst (by decide)]
  have h2 : bulk_raw frameBadSecond =
      .ok (hasNaN (frameBadSecond.rows.map encodeRow),
        (frameBadSecond.rows.map encodeRow).map fillna0) := by
    unfold bulk_raw
    rw [preprocess_raw_ok frameBadSecond (by decide)]
  have hw1 : hasNaN (frameBadFirst.rows.map encodeRow) = true := by
    norm_num [frameBadFirst, hasNaN, encodeRow, rowNA, toNumeric,
      mapYesNo, mapGender, FVal.isNan]
  have hw2 : hasNaN (frameBadSecond.rows.map encodeRow) = true := by
    norm_num [frameBadSecond, hasNaN, encodeRow, rowNA, exRec, toNumeric,
      mapYesNo, mapGender, tenureGroupMidSlot, FVal.add, FVal.div,
      FVal.gtQ, FVal.isNan]
  rw [h1, h2, hw1, hw2]
  refine ⟨rfl, rfl, rfl, ?_, ?_⟩ <;>
    simp [Except.toOption, frameBadFirst, frameBadSecond]

/-- **C8 (amended).** In batch encoding a single row's bad data does
not abort the batch: the row's unmappable or uncoercible cells become
NaN and the final stage zero-fills them, every row is returned (output
length equals input length), and no NaN reaches the classifier.  But
the caller receives only a single batch-wide warning flag — set iff
some cell of some encoded row is NaN — not a per-row success/failure
list, and no failure is recorded against a row's position. -/
theorem batch_warning_zero_fill (f : RawFrame)
    (hf : ∀ c ∈ requiredRawCols, c ∈ f.cols) :
    bulk_raw f = .ok (hasNaN (f.rows.map encodeRow),
      (f.rows.map encodeRow).map fillna0) ∧
    ((f.rows.map encodeRow).map fillna0).length = f.rows.length ∧
    (hasNaN (f.rows.map encodeRow) = true ↔
      ∃ r ∈ f.rows, ∃ x ∈ encodeRow r, x = FVal.nan) ∧
    (∀ row ∈ (f.rows.map encodeRow).map fillna0, ∀ x ∈ row,
      x ≠ FVal.nan) := by
  refine ⟨?_, by simp, ?_, ?_⟩
  · unfold bulk_raw
    rw [preprocess_raw_ok f hf]
  · simp [hasNaN, List.any_eq_true, FVal.isNan_iff]
  · intro row hrow x hx
    rw [List.mem_map] at hrow
    obtain ⟨enc, _, hrow⟩ := hrow
    subst hrow
    rw [fillna0, List.mem_map] at hx
    obtain ⟨z, _, hx⟩ := hx
    subst hx
    cases z <;> simp [FVal.isNan]

/-- Witness for the amended C8 at the 2-row upload whose second row
has the unparseable `TotalCharges`. -/
theorem batch_warning_zero_fill_witness :
    bulk_raw frameBadSecond =
      .ok (hasNaN (frameBadSecond.rows.map encodeRow),
        (frameBadSecond.rows.map encodeRow).map fillna0) ∧
    ((frameBadSecond.rows.map encodeRow).map fillna0).length = 2 := by
  have h := batch_warning_zero_fill frameBadSecond (by decide)
  exact ⟨h.1, h.2.1.trans rfl⟩

/-! ### Claim C10 -/

/-- **C10.** The manual single-prediction path assembles its 19-element
feature list in exactly the canonical `FEATURES` order of the bulk
path: for any raw record with in-domain categorical answers and
coercible numeric cells (`tenure = t`, `monthlyCharges = m`,
`totalCharges = c ≥ 0`), the manual form filled in for the same
customer (`toManual`) hands the classifier precisely the bulk path's
vector, slot for slot. -/
theorem manual_bulk_agreement (r : RawRecord) (t m c : ℚ)
    (hg : r.gender = "Male" ∨ r.gender = "Female")
    (hpa : r.Partner = "Yes" ∨ r.Partner = "No")
    (hd : r.Dependents = "Yes" ∨ r.Dependents = "No")
    (hph : r.PhoneService = "Yes" ∨ r.PhoneService = "No")
    (hpl : r.PaperlessBilling = "Yes" ∨ r.PaperlessBilling = "No")
    (hmu : r.MultipleLines = "Yes" ∨ r.MultipleLines = "No")
    (ht : r.tenure = some t) (hm : r.MonthlyCharges = some m)
    (hc : r.TotalCharges = some c) (hc0 : 0 ≤ c) :
    (manualFeatures (toManual r t m c)).map (fun l => l.map FVal.num) =
      some (encodeRow r) := by
  have hne : c + 1 ≠ 0 := by intro h0; linarith
  simp [manualFeatures, toManual, lookup_g _ hg, lookup_yn _ hpa,
    lookup_yn _ hd, lookup_yn _ hph, lookup_yn _ hpl, lookup_yn _ hmu,
    encodeRow, mapGender_eq _ hg, mapYesNo_eq _ hpa, mapYesNo_eq _ hd,
    mapYesNo_eq _ hph, mapYesNo_eq _ hpl, mapYesNo_eq _ hmu,
    toNumeric, ht, hm, hc, FVal.add, FVal.div, hne, tenureGroupMidSlot,
    FVal.gtQ]

/-- Witness for C10 at the spec's example customer. -/
theorem manual_bulk_agreement_witness :
    (manualFeatures (toManual exRec 24 90 2000)).map
        (fun l => l.map FVal.num) = some (encodeRow exRec) :=
  manual_bulk_agreement exRec 24 90 2000 (by decide) (by decide)
    (by decide) (by decide) (by decide) (by decide) rfl rfl rfl
    (by norm_num)

end Churn
